import Mathlib

/-!
Verification of the per-track timestamp-continuity engine of
`pvd::Stream` (projects/base/provider/stream.cpp).

The C++ state (the five per-track maps, the start timestamp, the lifecycle
state, the last-packet-received instant) is embedded as a Lean structure;
`std::map<uint32_t, int64_t>` becomes an association list `List (Nat × Int)`
with lookup/insert helpers.  The C++ `int64_t` arithmetic is `Int` (the
program never overflows in the scenarios modelled; C division by 2 is
`Int.tdiv`, truncation toward zero).  The microsecond/tick conversions, which
the C++ performs in `double`, are modelled with exact rational arithmetic
(`Rat`) followed by truncation toward zero, matching the C cast
`(int64_t)(double expr)`; at every concrete input evaluated below the double
and the exact-rational computations agree.
-/

set_option autoImplicit false

namespace Pvd

/-- Lookup in an association list keyed by track id (`std::map::find`). -/
def alookup {β : Type} : List (Nat × β) → Nat → Option β
  | [], _ => none
  | (k, v) :: rest, k' => if k = k' then some v else alookup rest k'

/-- Lookup with a default value, the semantics of a `std::map::operator[]`
read (which value-initializes an absent entry to 0). -/
def alookupD {β : Type} (m : List (Nat × β)) (k : Nat) (d : β) : β :=
  (alookup m k).getD d

/-- Insert or overwrite, the semantics of `std::map::operator[] = v`. -/
def ainsert {β : Type} : List (Nat × β) → Nat → β → List (Nat × β)
  | [], k, v => [(k, v)]
  | (k', v') :: rest, k, v =>
    if k' = k then (k, v) :: rest else (k', v') :: ainsert rest k v

/-- Modelled from the spec: the media kind of a track (video/audio/data),
from the external `cmn::MediaType` whose declaration is outside this
file's source. -/
inductive MediaTypeTag where
  | Video
  | Audio
  | Data
  deriving DecidableEq, Repr

/-- Modelled from the spec: a Track Directory entry (`MediaTrack` with its
`cmn::Timebase`, both declared outside this file's source).  The spec's
"rational timebase (ticks per second)": `GetExpr()` is num/den (seconds
per tick) and `GetTimescale()` is den/num (ticks per second); the media
kind is used by `GetFirstTrackByType`. -/
structure MediaTrack where
  num : Int
  den : Int
  mediaType : MediaTypeTag
  deriving DecidableEq, Repr

/-- The C++ tick-to-microsecond conversion
`(int64_t)((double)x * expr_tb2us)` with
`expr_tb2us = GetExpr() * 1000000 = (num/den) * 1000000`, modelled as
exact rational arithmetic followed by truncation toward zero: for an
integer x, truncating the rational `x * num * 1000000 / den` toward zero
is exactly `Int.tdiv (x * num * 1000000) den`. -/
def tb2usTrunc (t : MediaTrack) (x : Int) : Int :=
  Int.tdiv (x * t.num * 1000000) t.den

/-- The C++ microsecond-to-tick conversion
`(int64_t)((double)x * expr_us2tb)` with
`expr_us2tb = GetTimescale() / 1000000 = (den/num) / 1000000`, modelled
as exact rational arithmetic followed by truncation toward zero:
truncating `x * den / (num * 1000000)` toward zero is exactly
`Int.tdiv (x * t.den) (t.num * 1000000)`. -/
def us2tbTrunc (t : MediaTrack) (x : Int) : Int :=
  Int.tdiv (x * t.den) (t.num * 1000000)

/-- Modelled from the spec: the lifecycle states of `Stream::State`
(declared outside this file's source); at least an active family
(created/playing), STOPPED and TERMINATED. -/
inductive LifecycleState where
  | Created
  | Playing
  | Stopped
  | Terminated
  | Error
  deriving DecidableEq, Repr

/-- Modelled from the spec: the packet-type tag of a `MediaPacket`; one
reserved tag (OVT) denotes raw relay, exempt from bitstream-format
validation, and `Unknown` is the unspecified sentinel. -/
inductive PacketTypeTag where
  | Unknown
  | OVT
  | Generic
  deriving DecidableEq, Repr

/-- Modelled from the spec: the bitstream-format tag of a `MediaPacket`,
with `Unknown` as the unspecified sentinel. -/
inductive BitstreamFormatTag where
  | Unknown
  | Known
  deriving DecidableEq, Repr

/-- The mutable state of one `pvd::Stream`: lifecycle state, the Track
Directory view (`GetTrack`), the five per-track maps, the start
timestamp (microseconds, sentinel -1) and the last-packet-received
instant (microseconds, `none` = never, the
`time_point::min()` sentinel).  `application` models whether the
owning-application reference is non-null. -/
structure StreamState where
  state : LifecycleState
  tracks : List (Nat × MediaTrack)
  baseTimestampMap : List (Nat × Int)
  lastTimestampMap : List (Nat × Int)
  sourceTimestampMap : List (Nat × Int)
  wraparoundCountMapPts : List (Nat × Int)
  wraparoundCountMapDts : List (Nat × Int)
  lastOriginTsMapPts : List (Nat × Int)
  lastOriginTsMapDts : List (Nat × Int)
  startTimestamp : Int
  lastPktReceivedTime : Option Int
  application : Bool
  msid : Nat
  deriving DecidableEq, Repr

/-- The result of `Stream::AdjustTimestampByBase`: the returned value, the
two in-place-mutated reference parameters `pts`/`dts`, and the stream
state after the call. -/
structure AdjustResult where
  ret : Int
  pts : Int
  dts : Int
  s : StreamState
  deriving DecidableEq, Repr

/-- Step 1 of `AdjustTimestampByBase`: the start timestamp after the
capture-on-first-call guard (`_start_timestamp == -1LL` captures
`(int64_t)((double)dts * expr_tb2us)`). -/
def startTimestampAfter (s : StreamState) (track : MediaTrack) (dts : Int) : Int :=
  if s.startTimestamp = -1 then tb2usTrunc track dts
  else s.startTimestamp

/-- Step 2 of `AdjustTimestampByBase`: the track's base timestamp converted
from microseconds into the track's tick domain (0 when the track has no
`_base_timestamp_map` entry). -/
def baseTimestampTb (s : StreamState) (track : MediaTrack) (track_id : Nat) : Int :=
  match alookup s.baseTimestampMap track_id with
  | some v => us2tbTrunc track v
  | none => 0

/-- Embedding of `Stream::AdjustTimestampByBase` (stream.cpp lines
241-343): unknown track returns -1 with nothing mutated; otherwise
capture the start timestamp on first call, rebase pts/dts into the
track's tick domain, detect forward/reverse PTS wraparound and forward
DTS wraparound against the last raw values, apply the wraparound-counter
offset, record the emitted DTS in microseconds in
`_last_timestamp_map`, and update the last-raw-value maps (the PTS one
only when the call is not a reverse wraparound). -/
def AdjustTimestampByBase (s : StreamState) (track_id : Nat)
    (pts dts max_timestamp : Int) : AdjustResult :=
  match alookup s.tracks track_id with
  | none => ⟨-1, pts, dts, s⟩
  | some track =>
    let start_timestamp := startTimestampAfter s track dts
    let start_timestamp_tb := us2tbTrunc track start_timestamp
    let base_timestamp_tb := baseTimestampTb s track track_id
    let final_pkt_pts_tb : Int := base_timestamp_tb + (pts - start_timestamp_tb)
    let final_pkt_dts_tb : Int := base_timestamp_tb + (dts - start_timestamp_tb)
    -- PTS wraparound detection
    let revAndMap :=
      match alookup s.lastOriginTsMapPts track_id with
      | some last_origin_pts =>
        if last_origin_pts - pts > Int.tdiv max_timestamp 2 then
          (false, ainsert s.wraparoundCountMapPts track_id
            (alookupD s.wraparoundCountMapPts track_id 0 + 1))
        else if pts - last_origin_pts > Int.tdiv max_timestamp 2 then
          (true, s.wraparoundCountMapPts)
        else
          (false, s.wraparoundCountMapPts)
      | none => (false, s.wraparoundCountMapPts)
    let reverse_wraparound := revAndMap.1
    let wcPts := revAndMap.2
    let final_pkt_pts_tb : Int :=
      match alookup wcPts track_id with
      | some c => final_pkt_pts_tb +
          (c + (if reverse_wraparound then -1 else 0)) * max_timestamp
      | none => final_pkt_pts_tb
    -- DTS wraparound detection
    let wcDts :=
      match alookup s.lastOriginTsMapDts track_id with
      | some last_origin_dts =>
        if last_origin_dts - dts > Int.tdiv max_timestamp 2 then
          ainsert s.wraparoundCountMapDts track_id
            (alookupD s.wraparoundCountMapDts track_id 0 + 1)
        else s.wraparoundCountMapDts
      | none => s.wraparoundCountMapDts
    let final_pkt_dts_tb : Int :=
      match alookup wcDts track_id with
      | some c => final_pkt_dts_tb + c * max_timestamp
      | none => final_pkt_dts_tb
    let lastTs := ainsert s.lastTimestampMap track_id
      (tb2usTrunc track final_pkt_dts_tb)
    let lastOriginPts :=
      if reverse_wraparound = false then
        ainsert s.lastOriginTsMapPts track_id pts
      else s.lastOriginTsMapPts
    let lastOriginDts := ainsert s.lastOriginTsMapDts track_id dts
    ⟨final_pkt_pts_tb, final_pkt_pts_tb, final_pkt_dts_tb,
      { s with startTimestamp := start_timestamp,
               wraparoundCountMapPts := wcPts,
               wraparoundCountMapDts := wcDts,
               lastTimestampMap := lastTs,
               lastOriginTsMapPts := lastOriginPts,
               lastOriginTsMapDts := lastOriginDts }⟩

/-- Embedding of `Stream::GetBaseTimestamp` (stream.cpp lines 345-362):
-1 for an unknown track, otherwise the track's base timestamp (0 when
absent from the map) converted into the track's tick domain via
`base_timestamp * GetTimescale() / 1000000` (double arithmetic then
int64 conversion, modelled exactly over the rationals).  The C++
function reads but never mutates the stream state. -/
def GetBaseTimestamp (s : StreamState) (track_id : Nat) : Int :=
  match alookup s.tracks track_id with
  | none => -1
  | some track =>
    let base_timestamp : Int :=
      match alookup s.baseTimestampMap track_id with
      | some v => v
      | none => 0
    us2tbTrunc track base_timestamp

/-- Embedding of `Stream::GetDeltaTimestamp` (stream.cpp lines 386-425).
The C++ fetches the track (`GetTrack(track_id)`) but never uses it, so
the function does not depend on the Track Directory.  First observation
records the timestamp as baseline and returns 0; a decrease is a forward
wraparound when the baseline exceeds `max_timestamp * 99.99 / 100`
(delta = (max - baseline) + timestamp) and a source restart otherwise
(delta = 0); an increase gives timestamp - baseline; the baseline is
always updated. -/
def GetDeltaTimestamp (s : StreamState) (track_id : Nat)
    (timestamp max_timestamp : Int) : Int × StreamState :=
  match alookup s.sourceTimestampMap track_id with
  | none =>
    (0, { s with sourceTimestampMap := ainsert s.sourceTimestampMap track_id timestamp })
  | some last =>
    let delta : Int :=
      if timestamp < last then
        -- `last > max_timestamp * 99.99 / 100`, modelled as exact rational
        -- arithmetic: multiplying both sides by 10000 gives the equivalent
        -- integer comparison `last * 10000 > max_timestamp * 9999`.
        if last * 10000 > max_timestamp * 9999 then
          (max_timestamp - last) + timestamp
        else 0
      else timestamp - last
    (delta, { s with sourceTimestampMap := ainsert s.sourceTimestampMap track_id timestamp })

/-- Embedding of `Stream::AdjustTimestampByDelta` (stream.cpp lines
365-384): the running total in `_last_timestamp_map` (0 when absent)
plus the delta from `GetDeltaTimestamp`, stored back and returned.
Note there is no track-existence check on this path. -/
def AdjustTimestampByDelta (s : StreamState) (track_id : Nat)
    (timestamp max_timestamp : Int) : Int × StreamState :=
  let curr_timestamp : Int :=
    match alookup s.lastTimestampMap track_id with
    | none => 0
    | some v => v
  let ds := GetDeltaTimestamp s track_id timestamp max_timestamp
  let curr_timestamp := curr_timestamp + ds.1
  (curr_timestamp,
    { ds.2 with lastTimestampMap := ainsert ds.2.lastTimestampMap track_id curr_timestamp })

/-- `std::numeric_limits<int64_t>::max()`. -/
def INT64_MAX : Int := 2 ^ 63 - 1

/-- Embedding of `Stream::ResetSourceStreamTimestamp` (stream.cpp lines
189-237): take the minimum last timestamp over the entries of
`_last_timestamp_map` whose track exists (initial accumulator int64
max), write that minimum into `_base_timestamp_map` for every key of
`_last_timestamp_map`, reset `_start_timestamp` to -1 and clear
`_source_timestamp_map`. -/
def ResetSourceStreamTimestamp (s : StreamState) : StreamState :=
  let last_timestamp : Int := s.lastTimestampMap.foldl
    (fun acc kv => if (alookup s.tracks kv.1).isSome then min kv.2 acc else acc)
    INT64_MAX
  let base := s.lastTimestampMap.foldl
    (fun m kv => ainsert m kv.1 last_timestamp) s.baseTimestampMap
  { s with baseTimestampMap := base,
           startTimestamp := -1,
           sourceTimestampMap := [] }

/-- Embedding of `Stream::Stop` (stream.cpp lines 56-69): already-STOPPED
streams return true unchanged; otherwise the source timestamps are
rebased via `ResetSourceStreamTimestamp`, the state becomes STOPPED and
the call returns true. -/
def Stop (s : StreamState) : Bool × StreamState :=
  if s.state = LifecycleState.Stopped then (true, s)
  else (true, { ResetSourceStreamTimestamp s with state := LifecycleState.Stopped })

/-- Embedding of `Stream::Terminate` (stream.cpp lines 71-75). -/
def Terminate (s : StreamState) : Bool × StreamState :=
  (true, { s with state := LifecycleState.Terminated })

/-- Embedding of `Stream::UpdateReconnectTimeToBasetime` (stream.cpp lines
78-91): if a packet was ever received, add the microseconds elapsed
since then (wall clock passed in as `now`) to every
`_base_timestamp_map` entry. -/
def UpdateReconnectTimeToBasetime (s : StreamState) (now : Int) : StreamState :=
  match s.lastPktReceivedTime with
  | none => s
  | some t0 =>
    let reconnection_time_us := now - t0
    { s with baseTimestampMap :=
        s.baseTimestampMap.map (fun kv => (kv.1, kv.2 + reconnection_time_us)) }

/-- Embedding of `Stream::Start` (stream.cpp lines 47-54): logs, bridges
the reconnect gap into the base timestamps, and always returns true. -/
def Start (s : StreamState) (now : Int) : Bool × StreamState :=
  (true, UpdateReconnectTimeToBasetime s now)

/-- Embedding of `Stream::SetState` (stream.cpp lines 177-187): STOPPED is
rejected (false, state unchanged); any other state is set and true is
returned. -/
def SetState (s : StreamState) (st : LifecycleState) : Bool × StreamState :=
  if st = LifecycleState.Stopped then (false, s)
  else (true, { s with state := st })

/-- A `MediaPacket` as constructed by `SendDataFrame`: msid, media type,
track id, payload, pts, dts, bitstream format and packet type.  The
payload (`ov::Data`) is modelled as an opaque byte list. -/
structure MediaPacket where
  msid : Nat
  mediaType : MediaTypeTag
  trackId : Nat
  payload : List Nat
  pts : Int
  dts : Int
  format : BitstreamFormatTag
  packetType : PacketTypeTag
  deriving DecidableEq, Repr

/-- Embedding of `info::Stream::GetFirstTrackByType` as used by
`SendDataFrame`: the first Track Directory entry of the given media
kind. -/
def GetFirstTrackByType (s : StreamState) (t : MediaTypeTag) :
    Option (Nat × MediaTrack) :=
  s.tracks.find? (fun kv => kv.2.mediaType = t)

/-- Embedding of `Stream::SendFrame` (stream.cpp lines 149-175): fails on
a detached stream (no application), an Unknown packet type, or (for
non-OVT packets) an Unknown bitstream format; otherwise records `now`
as the last-packet-received instant and forwards to the application,
whose ingest verdict is the oracle parameter `appAccepts`. -/
def SendFrame (s : StreamState) (packet : MediaPacket) (now : Int)
    (appAccepts : Bool) : Bool × StreamState :=
  if s.application = false then (false, s)
  else if packet.packetType = PacketTypeTag.Unknown then (false, s)
  else if packet.packetType ≠ PacketTypeTag.OVT ∧
          packet.format = BitstreamFormatTag.Unknown then (false, s)
  else (appAccepts, { s with lastPktReceivedTime := some now })

/-- Embedding of `Stream::SendDataFrame` (stream.cpp lines 103-127): a
null payload fails immediately; a missing data track fails; otherwise a
packet with PTS = DTS = timestamp is built on the data track and
dispatched through `SendFrame`. -/
def SendDataFrame (s : StreamState) (timestamp : Int)
    (format : BitstreamFormatTag) (packet_type : PacketTypeTag)
    (frame : Option (List Nat)) (now : Int) (appAccepts : Bool) :
    Bool × StreamState :=
  match frame with
  | none => (false, s)
  | some f =>
    match GetFirstTrackByType s MediaTypeTag.Data with
    | none => (false, s)
    | some dataTrack =>
      SendFrame s
        ⟨s.msid, MediaTypeTag.Data, dataTrack.1, f, timestamp, timestamp, format, packet_type⟩
        now appAccepts

/-- Follows the spec's words (section 4.4) for the delta computation, to be
compared with the embedding `GetDeltaTimestamp`: 0 on first observation;
on a decrease, a forward wraparound when the baseline exceeds 99.99% of
`max_timestamp` (delta = (max - baseline) + timestamp) and a swallowed
source restart (delta 0) otherwise; otherwise the plain difference. -/
def deltaSpec (baseline : Option Int) (timestamp max_timestamp : Int) : Int :=
  match baseline with
  | none => 0
  | some b =>
    if timestamp < b then
      if (Int.cast b : Rat) > (Int.cast max_timestamp : Rat) * 9999 / 10000 then
        (max_timestamp - b) + timestamp
      else 0
    else timestamp - b

/-! ### Helper lemmas about the association-list maps -/

theorem alookup_ainsert_self {β : Type} (m : List (Nat × β)) (k : Nat) (v : β) :
    alookup (ainsert m k v) k = some v := by
  induction m with
  | nil => simp [ainsert, alookup]
  | cons kv rest ih =>
    by_cases h : kv.1 = k
    · simp [ainsert, alookup, h]
    · simp [ainsert, alookup, h, ih]

theorem alookup_ainsert_ne {β : Type} (m : List (Nat × β)) (k k' : Nat) (v : β)
    (h : k ≠ k') : alookup (ainsert m k v) k' = alookup m k' := by
  induction m with
  | nil => simp [ainsert, alookup, h]
  | cons kv rest ih =>
    by_cases hk : kv.1 = k
    · simp [ainsert, alookup, hk, h]
    · simp [ainsert, alookup, hk, ih]

theorem alookup_map_addGap (m : List (Nat × Int)) (g : Int) (k : Nat) :
    alookup (m.map (fun kv => (kv.1, kv.2 + g))) k
      = (alookup m k).map (fun v => v + g) := by
  induction m with
  | nil => simp [alookup]
  | cons kv rest ih =>
    by_cases h : kv.1 = k
    · simp [alookup, h]
    · simp [alookup, h, ih]

theorem alookup_foldl_ainsert_const (l : List (Nat × Int)) (m : List (Nat × Int))
    (v : Int) (k : Nat) :
    alookup (l.foldl (fun acc kv => ainsert acc kv.1 v) m) k
      = if (alookup l k).isSome then some v else alookup m k := by
  induction l generalizing m with
  | nil => simp [alookup]
  | cons kv rest ih =>
    simp only [List.foldl_cons, ih, alookup]
    by_cases h : kv.1 = k
    · by_cases hr : (alookup rest k).isSome
      · simp [h, hr]
      · simp [h, hr, alookup_ainsert_self]
    · by_cases hr : (alookup rest k).isSome
      · simp [h, hr]
      · simp [h, hr, alookup_ainsert_ne _ _ _ _ h]

theorem wrap_threshold_iff (b m : Int) :
    ((Int.cast b : Rat) > (Int.cast m : Rat) * 9999 / 10000) ↔ b * 10000 > m * 9999 := by
  rw [gt_iff_lt, div_lt_iff₀ (by norm_num : (0 : Rat) < 10000), gt_iff_lt]
  exact_mod_cast Iff.rfl

theorem foldl_min_cond_spec (tracks : List (Nat × MediaTrack))
    (l : List (Nat × Int)) (a : Int)
    (hp : ∀ kv ∈ l, (alookup tracks kv.1).isSome) :
    (∀ kv ∈ l,
        l.foldl (fun acc kv => if (alookup tracks kv.1).isSome then min kv.2 acc else acc) a
          ≤ kv.2) ∧
    l.foldl (fun acc kv => if (alookup tracks kv.1).isSome then min kv.2 acc else acc) a ≤ a ∧
    (l.foldl (fun acc kv => if (alookup tracks kv.1).isSome then min kv.2 acc else acc) a = a ∨
      ∃ kv ∈ l,
        l.foldl (fun acc kv => if (alookup tracks kv.1).isSome then min kv.2 acc else acc) a
          = kv.2) := by
  induction l generalizing a with
  | nil => simp
  | cons kv rest ih =>
    have hkv : (alookup tracks kv.1).isSome := hp kv (by simp)
    have hrest : ∀ kv ∈ rest, (alookup tracks kv.1).isSome := by
      intro x hx; exact hp x (by simp [hx])
    have := ih (min kv.2 a) hrest
    obtain ⟨h1, h2, h3⟩ := this
    refine ⟨?_, ?_, ?_⟩
    · intro x hx
      rcases List.mem_cons.mp hx with hx | hx
      · subst hx
        simpa [hkv] using le_trans h2 (min_le_left _ _)
      · simpa [hkv] using h1 x hx
    · simpa [hkv] using le_trans h2 (min_le_right _ _)
    · rcases h3 with h3 | ⟨x, hx, hfx⟩
      · rcases le_total kv.2 a with hle | hle
        · right
          exact ⟨kv, by simp, by simpa [hkv] using h3.trans (min_eq_left hle)⟩
        · left
          simpa [hkv] using h3.trans (min_eq_right hle)
      · right
        exact ⟨x, by simp [hx], by simpa [hkv] using hfx⟩

/-! ### Concrete streams used by the counterexamples and witnesses -/

/-- A track whose timebase is 1/1000000 (one tick per microsecond), so the
microsecond/tick conversion factors are both exactly 1. -/
def usTrack : MediaTrack := ⟨1, 1000000, MediaTypeTag.Video⟩

/-- A 90 kHz track (timebase 1/90000), the spec's linear-rebase scenario. -/
def track90k : MediaTrack := ⟨1, 90000, MediaTypeTag.Video⟩

/-- A playing stream with one microsecond-tick track and a fresh epoch. -/
def usStream : StreamState :=
  ⟨LifecycleState.Playing, [(1, usTrack)], [], [], [], [], [], [], [], -1, none, true, 0⟩

/-! ### Claim theorems -/

/-- C8: `Stop()` is idempotent: on an already-STOPPED stream a further
`Stop()` returns success and changes nothing, so the second of two
consecutive `Stop()` calls returns success with the state (in particular
`BaseTimestampMap`, `SourceTimestampMap` and `StartTimestamp`) exactly
as the first call left it. -/
theorem stop_idempotent (s : StreamState) :
    (s.state = LifecycleState.Stopped → Stop s = (true, s)) ∧
    Stop (Stop s).2 = (true, (Stop s).2) := by
  constructor
  · intro h; simp [Stop, h]
  · by_cases h : s.state = LifecycleState.Stopped <;> simp [Stop, h]

/-- Witness for C8 at a concrete already-stopped stream. -/
theorem stop_idempotent_witness :
    Stop { usStream with state := LifecycleState.Stopped }
      = (true, { usStream with state := LifecycleState.Stopped }) :=
  (stop_idempotent { usStream with state := LifecycleState.Stopped }).1 rfl

/-- C9: `SetState(STOPPED)` always returns false and leaves the state
unchanged, for every current state; `SetState` with any other state sets
it and returns true. -/
theorem setState_stopped_guard (s : StreamState) (st : LifecycleState) :
    SetState s LifecycleState.Stopped = (false, s) ∧
    (st ≠ LifecycleState.Stopped → SetState s st = (true, { s with state := st })) := by
  constructor
  · simp [SetState]
  · intro h; simp [SetState, h]

/-- Witness for C9 at a concrete stream and the TERMINATED target state. -/
theorem setState_stopped_guard_witness :
    SetState usStream LifecycleState.Stopped = (false, usStream) ∧
    SetState usStream LifecycleState.Terminated
      = (true, { usStream with state := LifecycleState.Terminated }) :=
  ⟨(setState_stopped_guard usStream LifecycleState.Terminated).1,
   (setState_stopped_guard usStream LifecycleState.Terminated).2 (by decide)⟩

/-- C10: `SendDataFrame` with a null payload buffer returns failure
immediately, for every stream state, timestamp, format, packet type,
clock instant and application verdict, and the returned stream state is
the input state unchanged (so no data-track lookup result, packet
construction or dispatch can affect the outcome). -/
theorem sendDataFrame_null_payload (s : StreamState) (timestamp : Int)
    (format : BitstreamFormatTag) (packet_type : PacketTypeTag)
    (now : Int) (appAccepts : Bool) :
    SendDataFrame s timestamp format packet_type none now appAccepts = (false, s) := rfl

/-- C6: `Start()` always returns success; with a recorded
last-packet-received instant t0 it adds now - t0 uniformly to every
existing `BaseTimestampMap` entry, and with no such instant it leaves
the stream unchanged. -/
theorem start_reconnect_bridging (s : StreamState) (now : Int) :
    (Start s now).1 = true ∧
    (s.lastPktReceivedTime = none → (Start s now).2 = s) ∧
    (∀ t0 : Int, s.lastPktReceivedTime = some t0 →
      ∀ k : Nat, alookup (Start s now).2.baseTimestampMap k
        = (alookup s.baseTimestampMap k).map (fun v => v + (now - t0))) := by
  refine ⟨rfl, ?_, ?_⟩
  · intro h; simp [Start, UpdateReconnectTimeToBasetime, h]
  · intro t0 h k
    simp [Start, UpdateReconnectTimeToBasetime, h, alookup_map_addGap]

/-- A stream that received its last packet at instant 100 with one base
entry of 42 microseconds, for the C6 witness. -/
def reconnectStream : StreamState :=
  { usStream with baseTimestampMap := [(1, 42)], lastPktReceivedTime := some 100 }

/-- Witness for C6: the base entry of 42 microseconds grows by exactly the
5,000,000-microsecond gap between the last packet (t0 = 100) and the
`Start()` instant (now = 5000100). -/
theorem start_reconnect_bridging_witness :
    alookup (Start reconnectStream 5000100).2.baseTimestampMap 1 = some 5000042 := by
  have h := (start_reconnect_bridging reconnectStream 5000100).2.2 100 rfl 1
  exact h.trans (by decide)

/-- C5: the delta helper and the accumulator behave as specified:
`GetDeltaTimestamp` returns exactly `deltaSpec` of the recorded baseline
(0 on first observation; on a decrease, forward wraparound above the
99.99% threshold and a swallowed restart below it; otherwise the
difference) and always re-records the baseline, and
`AdjustTimestampByDelta` adds that delta to the track's running total in
`LastTimestampMap` (0 when absent), storing and returning the new
total. -/
theorem delta_accumulation_spec (s : StreamState) (track_id : Nat)
    (timestamp max_timestamp : Int) :
    GetDeltaTimestamp s track_id timestamp max_timestamp
      = (deltaSpec (alookup s.sourceTimestampMap track_id) timestamp max_timestamp,
         { s with sourceTimestampMap := ainsert s.sourceTimestampMap track_id timestamp }) ∧
    AdjustTimestampByDelta s track_id timestamp max_timestamp
      = ((alookup s.lastTimestampMap track_id).getD 0
            + deltaSpec (alookup s.sourceTimestampMap track_id) timestamp max_timestamp,
         { s with
            sourceTimestampMap := ainsert s.sourceTimestampMap track_id timestamp,
            lastTimestampMap := ainsert s.lastTimestampMap track_id
              ((alookup s.lastTimestampMap track_id).getD 0
                + deltaSpec (alookup s.sourceTimestampMap track_id) timestamp max_timestamp) }) := by
  constructor
  · cases h : alookup s.sourceTimestampMap track_id with
    | none => simp [GetDeltaTimestamp, deltaSpec, h]
    | some b => simp [GetDeltaTimestamp, deltaSpec, h, wrap_threshold_iff]
  · cases h : alookup s.sourceTimestampMap track_id with
    | none =>
      cases h2 : alookup s.lastTimestampMap track_id with
      | none => simp [AdjustTimestampByDelta, GetDeltaTimestamp, deltaSpec, h, h2]
      | some v => simp [AdjustTimestampByDelta, GetDeltaTimestamp, deltaSpec, h, h2]
    | some b =>
      cases h2 : alookup s.lastTimestampMap track_id with
      | none =>
        simp [AdjustTimestampByDelta, GetDeltaTimestamp, deltaSpec, h, h2, wrap_threshold_iff]
      | some v =>
        simp [AdjustTimestampByDelta, GetDeltaTimestamp, deltaSpec, h, h2, wrap_threshold_iff]

/-- The 90 kHz stream of the spec's linear-rebase scenario: fresh epoch
(start timestamp -1), no base offset, all maps empty. -/
def linearStream : StreamState :=
  ⟨LifecycleState.Playing, [(1, track90k)], [], [], [], [], [], [], [], -1, none, true, 0⟩

/-- C1 counterexample: with timebase 1/90000 and base offset 0, the first
`AdjustTimestampByBase` call with PTS = DTS = 1000 returns 1, not the
claimed 1000.  The captured start timestamp is 1000 ticks -> 11111
microseconds (truncated from 11111.1), which converts back to 999 ticks
(truncated from 999.99), so the adjusted PTS is 1000 - 999 = 1. -/
theorem adjustByBase_linear_rebase_counterexample :
    (AdjustTimestampByBase linearStream 1 1000 1000 (2 ^ 33 - 1)).ret = 1 ∧
    ((1 : Int) ≠ 1000) := by decide

/-- C1 (amended): with timebase 1/90000, base offset 0 and a fresh epoch,
the first call with PTS = DTS = 1000 captures a start timestamp of 11111
microseconds and returns adjusted PTS 1 (the microsecond round-trip
truncates the 1000-tick start to 999 ticks); the second call with
PTS = DTS = 2000 returns adjusted PTS 1001. -/
theorem adjustByBase_linear_rebase_amended :
    (AdjustTimestampByBase linearStream 1 1000 1000 (2 ^ 33 - 1)).ret = 1 ∧
    (AdjustTimestampByBase linearStream 1 1000 1000 (2 ^ 33 - 1)).s.startTimestamp = 11111 ∧
    (AdjustTimestampByBase (AdjustTimestampByBase linearStream 1 1000 1000 (2 ^ 33 - 1)).s
        1 2000 2000 (2 ^ 33 - 1)).ret = 1001 := by decide

/-- A stream in mid-session on the microsecond-tick track: start timestamp
0, last raw PTS and DTS both 0, and a stored PTS wraparound count of
1, for the C2 reverse-wraparound scenario. -/
def reverseWrapStream : StreamState :=
  ⟨LifecycleState.Playing, [(1, usTrack)], [], [], [], [(1, 1)], [], [(1, 0)], [(1, 0)], 0,
    none, true, 0⟩

/-- C2 counterexample: a reverse-wraparound call (last raw PTS 0, current
raw PTS 60, max 100, so 60 - 0 > 100/2) on a track whose stored PTS
wraparound counter is 1.  The rebased PTS before any wraparound offset
is 60 (base 0, start 0), so the claimed offset of counter x max = 100
would give 160; the code returns 60, i.e. it applies
(counter - 1) x max = 0. -/
theorem adjustByBase_reverse_wraparound_counterexample :
    alookup reverseWrapStream.lastOriginTsMapPts 1 = some 0 ∧
    (60 : Int) - 0 > Int.tdiv 100 2 ∧
    alookup reverseWrapStream.wraparoundCountMapPts 1 = some 1 ∧
    baseTimestampTb reverseWrapStream usTrack 1
      + ((60 : Int) - us2tbTrunc usTrack (startTimestampAfter reverseWrapStream usTrack 10))
        = 60 ∧
    (AdjustTimestampByBase reverseWrapStream 1 60 10 100).ret = 60 ∧
    ((60 : Int) ≠ 60 + 1 * 100) := by decide

/-- C2 (amended): on a reverse-wraparound call (a last raw PTS exists and
current minus last exceeds max/2, with nonnegative max), the stored PTS
wraparound counter is not changed, the last-raw-PTS map is left exactly
as it was, and the wraparound offset applied to the adjusted PTS is
(stored counter - 1) x max when the counter map has an entry for the
track, and 0 when it has none. -/
theorem adjustByBase_reverse_wraparound_amended
    (s : StreamState) (track : MediaTrack) (track_id : Nat)
    (pts dts max_ts last : Int)
    (htrack : alookup s.tracks track_id = some track)
    (hlast : alookup s.lastOriginTsMapPts track_id = some last)
    (hmax : 0 ≤ max_ts)
    (hrev : pts - last > Int.tdiv max_ts 2) :
    (AdjustTimestampByBase s track_id pts dts max_ts).s.wraparoundCountMapPts
        = s.wraparoundCountMapPts ∧
    (AdjustTimestampByBase s track_id pts dts max_ts).s.lastOriginTsMapPts
        = s.lastOriginTsMapPts ∧
    (AdjustTimestampByBase s track_id pts dts max_ts).ret
        = baseTimestampTb s track track_id
          + (pts - us2tbTrunc track (startTimestampAfter s track dts))
          + (match alookup s.wraparoundCountMapPts track_id with
             | some c => (c - 1) * max_ts
             | none => 0) := by
  have hdiv : (0 : Int) ≤ Int.tdiv max_ts 2 := Int.tdiv_nonneg hmax (by norm_num)
  have hfwd : ¬ (last - pts > Int.tdiv max_ts 2) := by omega
  cases hc : alookup s.wraparoundCountMapPts track_id with
  | none =>
    refine ⟨?_, ?_, ?_⟩ <;>
      simp [AdjustTimestampByBase, htrack, hlast, hfwd, hrev, hc]
  | some c =>
    refine ⟨?_, ?_, ?_⟩ <;>
      simp [AdjustTimestampByBase, htrack, hlast, hfwd, hrev, hc]
    exact Or.inl (by ring)

/-- Witness for C2 (amended) at the concrete reverse-wraparound scenario:
counter map and last-raw-PTS map unchanged, returned PTS 60. -/
theorem adjustByBase_reverse_wraparound_amended_witness :
    (AdjustTimestampByBase reverseWrapStream 1 60 10 100).s.wraparoundCountMapPts
        = [(1, 1)] ∧
    (AdjustTimestampByBase reverseWrapStream 1 60 10 100).s.lastOriginTsMapPts
        = [(1, 0)] ∧
    (AdjustTimestampByBase reverseWrapStream 1 60 10 100).ret = 60 := by
  have h := adjustByBase_reverse_wraparound_amended reverseWrapStream usTrack 1 60 10 100 0
    rfl rfl (by decide) (by decide)
  exact ⟨h.1.trans (by decide), h.2.1.trans (by decide), h.2.2.trans (by decide)⟩

/-- A playing stream with an empty Track Directory, so that every track id
is unknown. -/
def noTracksStream : StreamState :=
  ⟨LifecycleState.Playing, [], [], [], [], [], [], [], [], -1, none, true, 0⟩

/-- C3 counterexample: `AdjustTimestampByDelta` on an unknown track id does
not return the -1 sentinel and does not leave the state unchanged: it
returns 0 and creates entries in `SourceTimestampMap` and
`LastTimestampMap` (the function never checks the Track Directory). -/
theorem unknown_track_sentinel_counterexample :
    alookup noTracksStream.tracks 0 = none ∧
    (AdjustTimestampByDelta noTracksStream 0 100 1000).1 = 0 ∧
    ((0 : Int) ≠ -1) ∧
    (AdjustTimestampByDelta noTracksStream 0 100 1000).2.sourceTimestampMap = [(0, 100)] ∧
    noTracksStream.sourceTimestampMap = [] := by decide

/-- C3 (amended): `AdjustTimestampByBase` and `GetBaseTimestamp` fail with
sentinel -1 and no state mutation when the track id is unknown, but
`AdjustTimestampByDelta` performs no track-existence check at all: its
result and its map updates are identical whether or not the track id is
in the Track Directory. -/
theorem unknown_track_sentinel_amended :
    (∀ (s : StreamState) (track_id : Nat) (pts dts max_ts : Int),
      alookup s.tracks track_id = none →
        AdjustTimestampByBase s track_id pts dts max_ts = ⟨-1, pts, dts, s⟩) ∧
    (∀ (s : StreamState) (track_id : Nat),
      alookup s.tracks track_id = none → GetBaseTimestamp s track_id = -1) ∧
    (∀ (s : StreamState) (track_id : Nat) (timestamp max_ts : Int),
      AdjustTimestampByDelta s track_id timestamp max_ts
        = ((AdjustTimestampByDelta { s with tracks := [] } track_id timestamp max_ts).1,
           { (AdjustTimestampByDelta { s with tracks := [] } track_id timestamp max_ts).2
              with tracks := s.tracks })) := by
  refine ⟨?_, ?_, ?_⟩
  · intro s track_id pts dts max_ts h
    simp [AdjustTimestampByBase, h]
  · intro s track_id h
    simp [GetBaseTimestamp, h]
  · intro s track_id timestamp max_ts
    cases h : alookup s.sourceTimestampMap track_id with
    | none => simp [AdjustTimestampByDelta, GetDeltaTimestamp, h]
    | some b => simp [AdjustTimestampByDelta, GetDeltaTimestamp, h]

/-- Witness for C3 (amended) at a concrete unknown track id. -/
theorem unknown_track_sentinel_amended_witness :
    AdjustTimestampByBase noTracksStream 0 7 8 100 = ⟨-1, 7, 8, noTracksStream⟩ ∧
    GetBaseTimestamp noTracksStream 0 = -1 :=
  ⟨unknown_track_sentinel_amended.1 noTracksStream 0 7 8 100 rfl,
   unknown_track_sentinel_amended.2.1 noTracksStream 0 rfl⟩

/-- C7 counterexample: on a microsecond-tick track, a first call with
DTS = -1 captures a start timestamp of -1 — the sentinel itself — so a
second call in the same epoch (no reset in between) assigns
`StartTimestamp` again, changing it from -1 to 5: it is not assigned at
most once per epoch. -/
theorem start_timestamp_once_counterexample :
    (AdjustTimestampByBase usStream 1 (-1) (-1) 1000).s.startTimestamp = -1 ∧
    (AdjustTimestampByBase (AdjustTimestampByBase usStream 1 (-1) (-1) 1000).s
        1 5 5 1000).s.startTimestamp = 5 ∧
    ((5 : Int) ≠ -1) := by decide

/-- C7 (amended): `StartTimestamp` is assigned at most once per epoch
provided the captured value is not itself the sentinel -1: a call that
finds it = -1 on a known track captures the DTS converted to
microseconds via the track's timebase (truncated); every call that
finds it different from -1 leaves it unchanged; and the end-of-session
reset restores the sentinel -1.  (A DTS whose conversion truncates to
-1 re-arms the capture, which is what the counterexample exploits.) -/
theorem start_timestamp_once_amended :
    (∀ (s : StreamState) (track_id : Nat) (pts dts max_ts : Int) (track : MediaTrack),
      s.startTimestamp = -1 → alookup s.tracks track_id = some track →
        (AdjustTimestampByBase s track_id pts dts max_ts).s.startTimestamp
          = tb2usTrunc track dts) ∧
    (∀ (s : StreamState) (track_id : Nat) (pts dts max_ts : Int),
      s.startTimestamp ≠ -1 →
        (AdjustTimestampByBase s track_id pts dts max_ts).s.startTimestamp
          = s.startTimestamp) ∧
    (∀ s : StreamState, (ResetSourceStreamTimestamp s).startTimestamp = -1) := by
  refine ⟨?_, ?_, ?_⟩
  · intro s track_id pts dts max_ts track h htrack
    simp [AdjustTimestampByBase, htrack, startTimestampAfter, h]
  · intro s track_id pts dts max_ts h
    cases htrack : alookup s.tracks track_id with
    | none => simp [AdjustTimestampByBase, htrack]
    | some track => simp [AdjustTimestampByBase, htrack, startTimestampAfter, h]
  · intro s
    simp [ResetSourceStreamTimestamp]

/-- A playing stream with two known tracks where only track 1 has a
`LastTimestampMap` entry (100) while track 2 already has a base entry
(7), for the C4 scenario. -/
def partialLastStream : StreamState :=
  ⟨LifecycleState.Playing, [(1, usTrack), (2, usTrack)], [(2, 7)], [(1, 100)], [], [], [],
    [], [], 5, none, true, 0⟩

/-- C4 counterexample: stopping a non-stopped stream whose
`LastTimestampMap` covers only track 1 (value 100, the minimum) does not
set every track's `BaseTimestampMap` entry to that minimum: track 2,
which has no `LastTimestampMap` entry, keeps its old base entry 7
(the update loop iterates over `LastTimestampMap`, not over all
tracks). -/
theorem stop_rebase_counterexample :
    partialLastStream.state ≠ LifecycleState.Stopped ∧
    alookup partialLastStream.lastTimestampMap 1 = some 100 ∧
    alookup partialLastStream.lastTimestampMap 2 = none ∧
    alookup (Stop partialLastStream).2.baseTimestampMap 1 = some 100 ∧
    alookup (Stop partialLastStream).2.baseTimestampMap 2 = some 7 ∧
    (some (7 : Int) ≠ some (100 : Int)) := by decide

/-- C4 (amended): `Stop()` on a non-stopped stream (whose
`LastTimestampMap` keys are known tracks with int64-range values)
returns success, computes the minimum last-emitted timestamp across the
tracks having a `LastTimestampMap` entry, sets the `BaseTimestampMap`
entry of exactly those tracks to that minimum (entries of tracks
without a `LastTimestampMap` entry are unchanged), resets
`StartTimestamp` to the unset sentinel -1 and clears
`SourceTimestampMap`. -/
theorem stop_rebase_amended (s : StreamState)
    (hstate : s.state ≠ LifecycleState.Stopped)
    (htracks : ∀ kv ∈ s.lastTimestampMap, (alookup s.tracks kv.1).isSome)
    (hrange : ∀ kv ∈ s.lastTimestampMap, kv.2 ≤ INT64_MAX) :
    (Stop s).1 = true ∧
    (Stop s).2.state = LifecycleState.Stopped ∧
    (Stop s).2.startTimestamp = -1 ∧
    (Stop s).2.sourceTimestampMap = [] ∧
    ∃ M : Int,
      (∀ kv ∈ s.lastTimestampMap, M ≤ kv.2) ∧
      (s.lastTimestampMap ≠ [] → ∃ kv ∈ s.lastTimestampMap, kv.2 = M) ∧
      (∀ k : Nat, (alookup s.lastTimestampMap k).isSome →
          alookup (Stop s).2.baseTimestampMap k = some M) ∧
      (∀ k : Nat, alookup s.lastTimestampMap k = none →
          alookup (Stop s).2.baseTimestampMap k = alookup s.baseTimestampMap k) := by
  have hstop : Stop s
      = (true, { ResetSourceStreamTimestamp s with state := LifecycleState.Stopped }) := by
    simp [Stop, hstate]
  obtain ⟨hle, -, hdisj⟩ := foldl_min_cond_spec s.tracks s.lastTimestampMap INT64_MAX htracks
  have hbase : ∀ k : Nat,
      alookup (Stop s).2.baseTimestampMap k
        = if (alookup s.lastTimestampMap k).isSome
          then some (s.lastTimestampMap.foldl
            (fun acc kv => if (alookup s.tracks kv.1).isSome then min kv.2 acc else acc)
            INT64_MAX)
          else alookup s.baseTimestampMap k := by
    intro k
    rw [hstop]
    simp only [ResetSourceStreamTimestamp]
    exact alookup_foldl_ainsert_const _ _ _ _
  refine ⟨by rw [hstop], by rw [hstop], ?_, ?_, ?_⟩
  · rw [hstop]; simp [ResetSourceStreamTimestamp]
  · rw [hstop]; simp [ResetSourceStreamTimestamp]
  · refine ⟨_, hle, ?_, ?_, ?_⟩
    · intro hne
      rcases hdisj with hmax | ⟨kv, hkv, hkvM⟩
      · obtain ⟨kv0, hmem⟩ := List.exists_mem_of_ne_nil _ hne
        have hub : kv0.2
            ≤ s.lastTimestampMap.foldl
                (fun acc kv => if (alookup s.tracks kv.1).isSome then min kv.2 acc else acc)
                INT64_MAX := by
          rw [hmax]; exact hrange kv0 hmem
        exact ⟨kv0, hmem, le_antisymm hub (hle kv0 hmem)⟩
      · exact ⟨kv, hkv, hkvM.symm⟩
    · intro k hk
      rw [hbase k, if_pos hk]
    · intro k hk
      rw [hbase k]
      simp [hk]

/-- Witness for C4 (amended) at the concrete two-track stream. -/
theorem stop_rebase_amended_witness :
    (Stop partialLastStream).1 = true ∧
    (Stop partialLastStream).2.state = LifecycleState.Stopped ∧
    (Stop partialLastStream).2.sourceTimestampMap = [] := by
  have h := stop_rebase_amended partialLastStream (by decide) (by decide) (by decide)
  exact ⟨h.1, h.2.1, h.2.2.2.1⟩

/-- Witness for C7 (amended): a stream whose start timestamp is 5 keeps it
across a further adjustment call. -/
theorem start_timestamp_once_amended_witness :
    (AdjustTimestampByBase { usStream with startTimestamp := 5 } 1 7 7 1000).s.startTimestamp
      = 5 := by
  have h := start_timestamp_once_amended.2.1 { usStream with startTimestamp := 5 }
    1 7 7 1000 (by decide)
  exact h.trans (by decide)

end Pvd
